import Mathlib

/-!
Shallow embedding of the EDR-Test-Application core (EDR-Generator), covering
the modules `common.rs`, `process.rs`, `network.rs` and `commander.rs`.

Operating-system interactions (spawning, the live process table, TCP sockets,
the row reader) are modelled as explicit oracle parameters; everything the
program itself computes is translated directly from the Rust source.
-/

namespace EDR

/-- Embedding of `common.rs::GenerationError`: a coarse category tag, an
optional OS-level io sub-kind (modelled as a string), and a message. -/
structure GenerationError where
  kind : String
  io_subkind : Option String
  message : String
deriving Repr, DecidableEq

/-- Embedding of `GenerationError::new`: kind and message, no io sub-kind. -/
def GenerationError.new (kind message : String) : GenerationError :=
  { kind := kind, io_subkind := none, message := message }

/-- Embedding of `logger.rs::Log`, the flat sink-facing event record. -/
structure Log where
  t : String
  timestamp : String
  username : String
  proc_name : String
  proc_cmd : String
  proc_id : String
  activity : String
  file_path : String
  source_addr : String
  source_port : String
  dest_addr : String
  dest_port : String
  bytes_sent : String
  protocol : String
deriving Repr, DecidableEq

/-- Embedding of `process.rs::adapt_log_process`. -/
def adapt_log_process (activity : String) (timestamp : Nat)
    (proc_name proc_cmd proc_id : String) : Log :=
  { t := "Information"
    timestamp := toString timestamp
    username := ""
    proc_name := proc_name
    proc_cmd := proc_cmd
    proc_id := proc_id
    activity := activity
    file_path := ""
    source_addr := ""
    source_port := ""
    dest_addr := ""
    dest_port := ""
    bytes_sent := ""
    protocol := "" }

/-- One entry of the live process table as exposed by the `sysinfo` crate:
pid, executable name and OS-reported start time. -/
structure SysProc where
  pid : Nat
  name : String
  start_time : Nat
deriving Repr, DecidableEq

/-- Embedding of `sysinfo::System::get_process`: lookup of a pid in the
current process-table snapshot. -/
def get_process (system : List SysProc) (pid : Nat) : Option SysProc :=
  system.find? (fun p => p.pid == pid)

/-- Embedding of `process.rs::Process`, one roster entry. -/
structure Process where
  id : Nat
  name : String
  cmd : String
  stime : Nat
deriving Repr, DecidableEq

/-- Embedding of `process.rs::ProcessManager`: the roster of tracked
processes plus the current process-table snapshot. -/
structure ProcessManager where
  processes : List Process
  system : List SysProc
deriving Repr, DecidableEq

/-- Embedding of `process.rs::KillCount`: the three classification buckets
produced by `stop_all`. -/
structure KillCount where
  killed : List Log
  premature : List Log
  failures : List Log
deriving Repr, DecidableEq

/-- Outcome of the OS `Command::spawn` call in `new_process`: either a child
pid, or an `io::Error` (sub-kind and message). -/
inductive SpawnResult where
  | ok (pid : Nat)
  | err (subkind message : String)
deriving Repr, DecidableEq

/-- Embedding of `ProcessManager::new_process`.  `fresh_table` is the result
of the `refresh_processes` call performed right after a successful spawn;
`spawn` is the outcome of the OS spawn itself.  Returns the call's result
together with the updated manager.  On the spawn `Err` path the manager is
untouched (the Rust code returns before refreshing); on the not-found path
only the snapshot was refreshed and the roster is unchanged; on success the
new record is pushed onto the roster. -/
def new_process (m : ProcessManager) (fresh_table : List SysProc)
    (spawn : SpawnResult) (path : String) (arguments : Option String) :
    Except GenerationError Log × ProcessManager :=
  let args := arguments.getD " "
  match spawn with
  | .ok pid =>
    match get_process fresh_table pid with
    | none =>
      (.error (GenerationError.new "processes" "Process Died Unexpectedly"),
       { m with system := fresh_table })
    | some p =>
      let full_cmd := path ++ " " ++ args
      (.ok (adapt_log_process "New Process" p.start_time p.name full_cmd
             (toString pid)),
       { processes := m.processes ++ [{ id := pid, name := p.name, cmd := full_cmd, stime := p.start_time }]
         system := fresh_table })
  | .err subkind msg =>
    (.error { kind := "io", io_subkind := some subkind, message := msg }, m)

/-- Embedding of the loop body of `ProcessManager::stop_all`.  `oracle k` is
the process table delivered by the `k`-th `refresh_processes` call of this
`stop_all` invocation; `system` is the snapshot currently held.  For each
roster entry: if its pid is absent from the current snapshot the first
`stop_process` errs and the entry is classified `premature` (no refresh);
otherwise a kill signal is sent, the table is refreshed, and a second
presence probe classifies the entry `failures` (still present) or `killed`
(gone).  Returns the buckets together with the final snapshot and the next
refresh index. -/
def stop_all_loop (oracle : Nat → List SysProc) :
    List Process → Nat → List SysProc → KillCount × List SysProc × Nat
  | [], k, system => ({ killed := [], premature := [], failures := [] }, system, k)
  | p :: ps, k, system =>
    match get_process system p.id with
    | some _ =>
      let system2 := oracle k
      let r := stop_all_loop oracle ps (k + 1) system2
      match get_process system2 p.id with
      | some _ =>
        ({ r.1 with failures :=
            adapt_log_process "Process Failed to Stop" p.stime p.name p.cmd (toString p.id) :: r.1.failures },
         r.2)
      | none =>
        ({ r.1 with killed :=
            adapt_log_process "Process Stopped" p.stime p.name p.cmd (toString p.id) :: r.1.killed },
         r.2)
    | none =>
      let r := stop_all_loop oracle ps k system
      ({ r.1 with premature :=
          adapt_log_process "Process had prematurely terminated" p.stime p.name p.cmd (toString p.id) :: r.1.premature },
       r.2)

/-- The classification buckets computed by a `stop_all` call: the table is
refreshed once at the start (`oracle 0`) and the loop then runs over the
roster, consuming further refreshes from index 1 on. -/
def stop_all_buckets (m : ProcessManager) (oracle : Nat → List SysProc) : KillCount :=
  (stop_all_loop oracle m.processes 1 (oracle 0)).1

/-- Embedding of `ProcessManager::stop_all`.  After the loop, if `killed`
and `premature` are both empty while `failures` is non-empty the call
returns a `process` error (the buckets are dropped); otherwise it returns
the populated `KillCount`.  The roster is never modified; only the snapshot
is updated. -/
def stop_all (m : ProcessManager) (oracle : Nat → List SysProc) :
    Except GenerationError KillCount × ProcessManager :=
  let r := stop_all_loop oracle m.processes 1 (oracle 0)
  let m2 : ProcessManager := { processes := m.processes, system := r.2.1 }
  if r.1.killed.length = 0 ∧ r.1.premature.length = 0 ∧ 0 < r.1.failures.length then
    (.error (GenerationError.new "process" "All Child Processes Failed to Terminate"), m2)
  else
    (.ok r.1, m2)

/-- The pids recorded across the three buckets, in bucket order. -/
def bucket_ids (kc : KillCount) : List String :=
  (kc.killed ++ kc.premature ++ kc.failures).map Log.proc_id

theorem perm_mid_three {α : Type} (x : α) (a b c : List α) :
    (a ++ (x :: b) ++ c).Perm (x :: (a ++ b ++ c)) := by
  have h : a ++ (x :: b) ++ c = a ++ x :: (b ++ c) := by simp
  rw [h, List.append_assoc]
  exact List.perm_middle

theorem stop_all_loop_perm (oracle : Nat → List SysProc) (ps : List Process) :
    ∀ (k : Nat) (system : List SysProc),
      (bucket_ids (stop_all_loop oracle ps k system).1).Perm
        (ps.map (fun p => toString p.id)) := by
  induction ps with
  | nil => intro k system; simp [stop_all_loop, bucket_ids]
  | cons p ps ih =>
    intro k system
    simp only [stop_all_loop, List.map_cons]
    cases h1 : get_process system p.id with
    | none =>
      simp only [bucket_ids]
      refine List.Perm.trans (List.Perm.map _ (perm_mid_three _ _ _ _)) ?_
      simpa [bucket_ids, adapt_log_process] using List.Perm.cons (toString p.id) (ih k system)
    | some q =>
      cases h2 : get_process (oracle k) p.id with
      | none =>
        simpa [bucket_ids, adapt_log_process] using List.Perm.cons (toString p.id) (ih (k + 1) (oracle k))
      | some q2 =>
        simp only [bucket_ids]
        have h3 : ((stop_all_loop oracle ps (k + 1) (oracle k)).1.killed ++
              (stop_all_loop oracle ps (k + 1) (oracle k)).1.premature ++
              (adapt_log_process "Process Failed to Stop" p.stime p.name p.cmd (toString p.id) ::
                (stop_all_loop oracle ps (k + 1) (oracle k)).1.failures)).Perm
            (adapt_log_process "Process Failed to Stop" p.stime p.name p.cmd (toString p.id) ::
              ((stop_all_loop oracle ps (k + 1) (oracle k)).1.killed ++
               (stop_all_loop oracle ps (k + 1) (oracle k)).1.premature ++
               (stop_all_loop oracle ps (k + 1) (oracle k)).1.failures)) := by
          simpa [List.append_assoc] using
            (@List.perm_middle Log
              (adapt_log_process "Process Failed to Stop" p.stime p.name p.cmd (toString p.id))
              ((stop_all_loop oracle ps (k + 1) (oracle k)).1.killed ++
                (stop_all_loop oracle ps (k + 1) (oracle k)).1.premature)
              ((stop_all_loop oracle ps (k + 1) (oracle k)).1.failures))
        refine List.Perm.trans (List.Perm.map Log.proc_id h3) ?_
        simpa [bucket_ids, adapt_log_process] using List.Perm.cons (toString p.id) (ih (k + 1) (oracle k))

theorem stop_all_eq (m : ProcessManager) (oracle : Nat → List SysProc) :
    stop_all m oracle
      = (if (stop_all_buckets m oracle).killed = [] ∧ (stop_all_buckets m oracle).premature = [] ∧
            (stop_all_buckets m oracle).failures ≠ []
         then .error (GenerationError.new "process" "All Child Processes Failed to Terminate")
         else .ok (stop_all_buckets m oracle),
         { processes := m.processes,
           system := (stop_all_loop oracle m.processes 1 (oracle 0)).2.1 }) := by
  have hcond : ((stop_all_buckets m oracle).killed.length = 0 ∧
      (stop_all_buckets m oracle).premature.length = 0 ∧
      0 < (stop_all_buckets m oracle).failures.length)
      ↔ ((stop_all_buckets m oracle).killed = [] ∧ (stop_all_buckets m oracle).premature = [] ∧
          (stop_all_buckets m oracle).failures ≠ []) := by
    rw [List.length_eq_zero, List.length_eq_zero, List.length_pos]
  show (if (stop_all_buckets m oracle).killed.length = 0 ∧
          (stop_all_buckets m oracle).premature.length = 0 ∧
          0 < (stop_all_buckets m oracle).failures.length
        then ((Except.error (GenerationError.new "process" "All Child Processes Failed to Terminate") :
                Except GenerationError KillCount),
              ({ processes := m.processes,
                 system := (stop_all_loop oracle m.processes 1 (oracle 0)).2.1 } : ProcessManager))
        else (Except.ok (stop_all_buckets m oracle),
              { processes := m.processes,
                system := (stop_all_loop oracle m.processes 1 (oracle 0)).2.1 })) = _
  rw [if_congr hcond rfl rfl]
  split <;> rfl

/-- C1.  Every stop_all call classifies every tracked roster entry into
exactly one of the three buckets: the multiset of process ids across
`killed ++ premature ++ failures` is a permutation of the roster's ids at
call time (so the union of the buckets is exactly the roster, each entry
counted once), and in particular the bucket sizes sum to the roster size. -/
theorem stop_all_partition (m : ProcessManager) (oracle : Nat → List SysProc) :
    (bucket_ids (stop_all_buckets m oracle)).Perm
        (m.processes.map (fun p => toString p.id))
    ∧ (stop_all_buckets m oracle).killed.length
        + (stop_all_buckets m oracle).premature.length
        + (stop_all_buckets m oracle).failures.length
      = m.processes.length := by
  have h := stop_all_loop_perm oracle m.processes 1 (oracle 0)
  refine ⟨h, ?_⟩
  have := h.length_eq
  simpa [bucket_ids, Nat.add_assoc] using this

/-- C2 (amended).  stop_all returns the `process`-kind "all failed" error
iff, after processing the whole roster, `killed` and `premature` are both
empty while `failures` is non-empty; in every other case it returns the
populated KillCount.  (In the error case only the bare kind/message error
is returned: the per-bucket detail is dropped, not attached to the error.) -/
theorem stop_all_error_characterization (m : ProcessManager) (oracle : Nat → List SysProc) :
    ((stop_all m oracle).1
        = .error (GenerationError.new "process" "All Child Processes Failed to Terminate")
      ↔ ((stop_all_buckets m oracle).killed = [] ∧ (stop_all_buckets m oracle).premature = [] ∧
          (stop_all_buckets m oracle).failures ≠ []))
    ∧ (¬((stop_all_buckets m oracle).killed = [] ∧ (stop_all_buckets m oracle).premature = [] ∧
          (stop_all_buckets m oracle).failures ≠ []) →
        (stop_all m oracle).1 = .ok (stop_all_buckets m oracle)) := by
  rw [stop_all_eq]
  by_cases h : (stop_all_buckets m oracle).killed = [] ∧ (stop_all_buckets m oracle).premature = [] ∧
      (stop_all_buckets m oracle).failures ≠ []
  · simp [h]
  · simp [h]

/-- Roster and oracle exhibiting the all-failed case of stop_all: one
tracked process whose pid stays present in every refreshed table. -/
def mC2 : ProcessManager :=
  { processes := [{ id := 1, name := "sh", cmd := "sh  ", stime := 0 }], system := [] }

/-- A process table in which pid 1 is always present. -/
def tableC2 : List SysProc := [{ pid := 1, name := "sh", start_time := 0 }]

/-- C2 counterexample.  On the all-failed path stop_all returns the bare
GenerationError (kind/io_subkind/message only) — the populated failure
bucket the call computed is dropped, so no per-bucket detail reaches the
caller as part of the error, contrary to the claim. -/
theorem stop_all_error_drops_buckets :
    (stop_all mC2 (fun _ => tableC2)).1
      = .error (GenerationError.new "process" "All Child Processes Failed to Terminate")
    ∧ stop_all_buckets mC2 (fun _ => tableC2)
      = { killed := [], premature := [],
          failures := [adapt_log_process "Process Failed to Stop" 0 "sh" "sh  " "1"] } := by
  constructor <;> rfl

/-- Witness for stop_all_error_characterization at a concrete input: an
empty roster is not in the all-failed case, so the call returns the (empty)
KillCount successfully. -/
theorem stop_all_error_characterization_witness :
    (stop_all { processes := [], system := [] } (fun _ => [])).1
      = .ok (stop_all_buckets { processes := [], system := [] } (fun _ => [])) :=
  (stop_all_error_characterization { processes := [], system := [] } (fun _ => [])).2
    (by simp [stop_all_buckets, stop_all_loop])

theorem stop_all_loop_all_absent (oracle : Nat → List SysProc) (ps : List Process) :
    ∀ (k : Nat) (system : List SysProc),
      (∀ p ∈ ps, get_process system p.id = none) →
      stop_all_loop oracle ps k system
        = ({ killed := [],
             premature := ps.map (fun p =>
               adapt_log_process "Process had prematurely terminated" p.stime p.name p.cmd (toString p.id)),
             failures := [] }, system, k) := by
  induction ps with
  | nil => intro k system _; simp [stop_all_loop]
  | cons p ps ih =>
    intro k system h
    have hp : get_process system p.id = none := h p (by simp)
    have hr : ∀ q ∈ ps, get_process system q.id = none := fun q hq => h q (by simp [hq])
    simp [stop_all_loop, hp, ih k system hr]

/-- C10.  stop_all never removes entries from the roster: the tracked
process vector of the returned manager equals the one at call time; and a
second stop_all on the returned manager, at a time when none of the
tracked pids is present in the refreshed table, iterates the same roster
again and classifies every entry as premature (returning that bucket
successfully). -/
theorem stop_all_preserves_roster (m : ProcessManager) (oracle oracle2 : Nat → List SysProc) :
    (stop_all m oracle).2.processes = m.processes
    ∧ ((∀ p ∈ m.processes, get_process (oracle2 0) p.id = none) →
        (stop_all (stop_all m oracle).2 oracle2).1
          = .ok { killed := [],
                  premature := m.processes.map (fun p =>
                    adapt_log_process "Process had prematurely terminated" p.stime p.name p.cmd (toString p.id)),
                  failures := [] }) := by
  have hframe : (stop_all m oracle).2.processes = m.processes := by
    rw [stop_all_eq]
  refine ⟨hframe, ?_⟩
  intro habs
  rw [stop_all_eq]
  have hb : stop_all_buckets (stop_all m oracle).2 oracle2
      = { killed := [],
          premature := m.processes.map (fun p =>
            adapt_log_process "Process had prematurely terminated" p.stime p.name p.cmd (toString p.id)),
          failures := [] } := by
    unfold stop_all_buckets
    rw [hframe, stop_all_loop_all_absent oracle2 m.processes 1 (oracle2 0) habs]
  rw [hb]
  simp

/-- A one-process roster for exercising the second stop_all call. -/
def mC10 : ProcessManager :=
  { processes := [{ id := 1, name := "a", cmd := "c", stime := 0 }], system := [] }

/-- Witness for stop_all_preserves_roster at a concrete input: after a
first stop_all, a second one against an empty process table classifies the
still-tracked process as premature. -/
theorem stop_all_preserves_roster_witness :
    (stop_all (stop_all mC10 (fun _ => [])).2 (fun _ => [])).1
      = .ok { killed := [],
              premature := mC10.processes.map (fun p =>
                adapt_log_process "Process had prematurely terminated" p.stime p.name p.cmd (toString p.id)),
              failures := [] } :=
  (stop_all_preserves_roster mC10 (fun _ => []) (fun _ => [])).2 (fun _ _ => rfl)

/-- C6 (amended).  When the freshly spawned child's pid is not found in the
refreshed process table, new_process returns an error of kind "processes"
(sic — the source spells the kind "processes", not the documented
"process") and leaves the roster unchanged; more generally the roster grows
iff the spawn succeeded and the pid was confirmed present, and every error
outcome leaves the roster unchanged. -/
theorem new_process_roster_spec (m : ProcessManager) (fresh_table : List SysProc)
    (spawn : SpawnResult) (path : String) (arguments : Option String) :
    (∀ pid, spawn = .ok pid → get_process fresh_table pid = none →
        (new_process m fresh_table spawn path arguments).1
          = .error (GenerationError.new "processes" "Process Died Unexpectedly")
        ∧ (new_process m fresh_table spawn path arguments).2.processes = m.processes)
    ∧ ((new_process m fresh_table spawn path arguments).2.processes ≠ m.processes
        ↔ ∃ pid, spawn = .ok pid ∧ (get_process fresh_table pid).isSome = true)
    ∧ (∀ e, (new_process m fresh_table spawn path arguments).1 = .error e →
        (new_process m fresh_table spawn path arguments).2.processes = m.processes) := by
  cases spawn with
  | ok pid =>
    cases h : get_process fresh_table pid with
    | none => simp [new_process, h]
    | some p => simp [new_process, h]
  | err subkind msg => simp [new_process]

/-- C6 counterexample.  On the pid-not-found path the error's kind is the
string "processes", not "process" as the claim states (and the roster is
unchanged). -/
theorem new_process_error_kind_typo :
    (new_process { processes := [], system := [] } [] (.ok 7) "sh" none).1
      = .error (GenerationError.new "processes" "Process Died Unexpectedly")
    ∧ (GenerationError.new "processes" "Process Died Unexpectedly").kind ≠ "process"
    ∧ (new_process { processes := [], system := [] } [] (.ok 7) "sh" none).2.processes = [] := by
  refine ⟨rfl, by decide, rfl⟩

/-- Witness for new_process_roster_spec at a concrete input: spawn reported
pid 4 but the refreshed (empty) table does not contain it. -/
theorem new_process_roster_spec_witness :
    (new_process { processes := [], system := [] } [] (.ok 4) "sh" none).1
      = .error (GenerationError.new "processes" "Process Died Unexpectedly") :=
  ((new_process_roster_spec { processes := [], system := [] } [] (.ok 4) "sh" none).1
    4 rfl rfl).1

/-- The six error categories documented by the specification. -/
def documented_kinds : List String :=
  ["input_format", "user_permissions", "io", "network", "process", "logging"]

/-- C7 counterexample.  The spawn-confirmation failure of new_process
produces a GenerationError whose kind, "processes", is outside the six
documented categories. -/
theorem undocumented_kind_produced :
    (new_process { processes := [], system := [] } [] (.ok 3) "cmd" none).1
      = .error (GenerationError.new "processes" "Process Died Unexpectedly")
    ∧ "processes" ∉ documented_kinds :=
  ⟨rfl, by decide⟩

/-- Oracle for the OS TCP layer used by `send_message`: whether the
`TcpStream::connect` call succeeds, whether the `stream.write` call
succeeds, the stream's negotiated local address when available, and the
wall-clock RFC3339 timestamp `get_time` would return.  A successful write
is modelled as placing the whole buffer on the wire. -/
structure TcpOracle where
  connect_ok : Bool
  write_ok : Bool
  local_addr : Option (String × Nat)
  now : String
deriving Repr, DecidableEq

/-- Embedding of `network.rs::adapt_log_network` (the timestamp parameter
stands for the `get_time()` call). -/
def adapt_log_network (now : String) (activity source_addr : String) (source_port : Nat)
    (dest_addr : String) (dest_port : Nat) (bytes_sent : Nat) (protocol : String) : Log :=
  { t := "Information"
    timestamp := now
    username := ""
    proc_name := ""
    proc_cmd := ""
    proc_id := ""
    activity := activity
    file_path := ""
    source_addr := source_addr
    source_port := toString source_port
    dest_addr := dest_addr
    dest_port := toString dest_port
    bytes_sent := toString bytes_sent
    protocol := protocol }

/-- What a `send_message` call did: its result, the connect attempts it
made against the OS, and the stream its peer can observe (`none` when no
connection was established; `some none` when the connection was made but
the write failed, so the peer's read fails; `some (some bytes)` when the
full payload went out). -/
structure SendOutcome where
  result : Except GenerationError Log
  connect_attempts : List (String × Nat)
  peer_stream : Option (Option (List Nat))
deriving Repr

/-- Embedding of `network.rs::send_message`: rejects port 0 before any OS
call, otherwise connects and writes the payload, reporting the negotiated
local address (or the "unknown"/0 defaults) in the event. -/
def send_message (o : TcpOracle) (ip : String) (port : Nat) (message : List Nat) : SendOutcome :=
  if port = 0 then
    { result := .error (GenerationError.new "network" "Invalid Port Number"),
      connect_attempts := [], peer_stream := none }
  else if o.connect_ok then
    if o.write_ok then
      let la := o.local_addr.getD ("unknown", 0)
      { result := .ok (adapt_log_network o.now "Network Connection" la.1 la.2 ip port
          message.length "TCP/IP"),
        connect_attempts := [(ip, port)], peer_stream := some (some message) }
    else
      { result := .error (GenerationError.new "network" "Unable to open stream for writing"),
        connect_attempts := [(ip, port)], peer_stream := some none }
  else
    { result := .error (GenerationError.new "network" "Unable to Connect"),
      connect_attempts := [(ip, port)], peer_stream := none }

/-- One event of the listener's `incoming()` iteration: either the accept
failed, or a connection whose read-to-end yields `some data` or fails. -/
inductive StreamEvent where
  | accept_error
  | conn (read_result : Option (List Nat))
deriving Repr, DecidableEq

/-- Embedding of `network.rs::server_listen`: iterate the incoming streams;
an accept error clears the received data and continues; the first accepted
connection is read to end of stream (a failed read clears the data) and the
loop breaks; the result is the received data or the empty byte sequence. -/
def server_listen : List StreamEvent → List Nat
  | [] => []
  | .accept_error :: rest => server_listen rest
  | .conn (some data) :: _ => data
  | .conn none :: _ => []

/-- Oracle for `send_loopback_message`: whether the ephemeral bind
succeeds, the OS-assigned port, and the TCP oracle for the connect half. -/
structure LoopbackOracle where
  bind_ok : Bool
  assigned_port : Nat
  tcp : TcpOracle
deriving Repr, DecidableEq

/-- Embedding of `network.rs::send_loopback_message`: bind an ephemeral
loopback listener (a failed bind is a network error), hand the listener to
the background `server_listen` thread, and connect-and-send the payload to
127.0.0.1 at the assigned port.  The second component is the incoming
stream sequence that the background listener observes: the single
connection made by the send half, when one was established. -/
def send_loopback_message (o : LoopbackOracle) (message : List Nat) :
    Except GenerationError Log × List StreamEvent :=
  if o.bind_ok then
    let outcome := send_message o.tcp "127.0.0.1" o.assigned_port message
    (outcome.result,
     match outcome.peer_stream with
     | some r => [.conn r]
     | none => [])
  else
    (.error (GenerationError.new "network" "Unable to Start Server"), [])

/-- The bytes the loopback self-test's background listener ends up with. -/
def loopback_received (o : LoopbackOracle) (message : List Nat) : List Nat :=
  server_listen (send_loopback_message o message).2

/-- C8.  For every oracle, host and payload, send_message at port 0 returns
the network-kind "Invalid Port Number" error with no connect attempt made
and no stream ever opened: the rejection happens before any OS call. -/
theorem send_message_port_zero (o : TcpOracle) (ip : String) (message : List Nat) :
    send_message o ip 0 message
      = { result := .error (GenerationError.new "network" "Invalid Port Number"),
          connect_attempts := [], peer_stream := none } := rfl

/-- C9.  The loopback self-test is a byte-for-byte round trip: when the
ephemeral bind succeeds (with a nonzero assigned port) and the connect and
write succeed, the byte sequence the background listener reads from its
single accepted connection equals the payload given to
send_loopback_message. -/
theorem loopback_round_trip (o : LoopbackOracle) (message : List Nat)
    (hb : o.bind_ok = true) (hp : o.assigned_port ≠ 0)
    (hc : o.tcp.connect_ok = true) (hw : o.tcp.write_ok = true) :
    loopback_received o message = message := by
  unfold loopback_received send_loopback_message send_message
  simp [hb, hp, hc, hw, server_listen]

/-- Witness for loopback_round_trip at a concrete oracle and payload. -/
theorem loopback_round_trip_witness :
    loopback_received
      { bind_ok := true, assigned_port := 9,
        tcp := { connect_ok := true, write_ok := true, local_addr := none, now := "t" } }
      [104, 105] = [104, 105] :=
  loopback_round_trip _ _ rfl (by decide) rfl rfl

/-- Observable state of a `TaskCommander` session (`commander.rs`): whether
the ProcessManager initialized (`process_manager.is_some()`), the error
counter, the events and error records handed to the sink (the sink is
modelled as accepting every record; the logger's filling of the global
username/process fields does not change the number or order of records),
and — as instrumentation — the list of (path, argument-string) pairs passed
to the process actor's spawn. -/
structure CState where
  hasPM : Bool
  errors_encountered : Nat
  events : List Log
  errorLogs : List GenerationError
  spawnCalls : List (String × Option String)
deriving Repr

/-- Embedding of `Logger::log_event` as seen from the dispatcher: one more
event record reaches the sink. -/
def log_event (s : CState) (l : Log) : CState :=
  { s with events := s.events ++ [l] }

/-- Embedding of `TaskCommander::error_print`: the error is logged and the
error counter is incremented. -/
def error_print (s : CState) (e : GenerationError) : CState :=
  { s with errorLogs := s.errorLogs ++ [e],
           errors_encountered := s.errors_encountered + 1 }

/-- Stand-in for the Rust Debug rendering of a StringRecord inside the
dispatcher's error messages. -/
def record_debug (params : List String) : String := toString params

/-- Decimal-digit parse of a string (the success cases of Rust's
`str::parse` for unsigned integers): at least one character, all digits. -/
def parse_digits (s : String) : Option Nat :=
  if s.data ≠ [] ∧ s.data.all (fun c => c.isDigit) then
    some (s.data.foldl (fun n c => n * 10 + (c.toNat - 48)) 0)
  else none

/-- Embedding of `str::parse::<u64>`: digits only and within u64 range. -/
def u64_parse (s : String) : Option Nat :=
  match parse_digits s with
  | some n => if n < 2 ^ 64 then some n else none
  | none => none

/-- Embedding of `str::parse::<u16>`: digits only and within u16 range. -/
def u16_parse (s : String) : Option Nat :=
  match parse_digits s with
  | some n => if n < 2 ^ 16 then some n else none
  | none => none

/-- The argument string `run_process` builds from fields 2..: present only
when more than two fields exist, each extra field suffixed with a space. -/
def process_arguments (params : List String) : Option String :=
  if params.length > 2 then
    some (String.join ((params.drop 2).map (fun a => a ++ " ")))
  else none

/-- The actors the dispatcher routes to, as oracles: outcome of
`ProcessManager::new_process` on (path, argument string), of the
file-system operation on (verb, path), of `network::send_message` on
(host, port, message) and of `network::send_loopback_message` on the
message. -/
structure Actors where
  procAct : String → Option String → Except GenerationError Log
  fileAct : String → String → Except GenerationError Log
  netConnect : String → Nat → String → Except GenerationError Log
  netSelf : String → Except GenerationError Log

/-- Embedding of `TaskCommander::run_process`: manager availability is
checked first (`user_permissions` error), then arity (at least two fields,
`input_format` error), then the spawn is invoked; an actor failure is
re-reported under the actor's own kind. -/
def run_process (act : Actors) (s : CState) (params : List String) : CState :=
  if s.hasPM = false then
    error_print s (GenerationError.new "user_permissions"
      "Child processes are not allowed to be spawned")
  else if params.length < 2 then
    error_print s (GenerationError.new "input_format"
      ("Record " ++ record_debug params ++
       " is not formatted correctly for a process (process,<path>,[arguments...])"))
  else
    let path := params.getD 1 ""
    let arguments := process_arguments params
    let s1 := { s with spawnCalls := s.spawnCalls ++ [(path, arguments)] }
    match act.procAct path arguments with
    | .ok result_log => log_event s1 result_log
    | .error e =>
      error_print s1 (GenerationError.new e.kind
        ("Record " ++ record_debug params ++ " encountered an error " ++ e.message ++ ")"))

/-- Embedding of `TaskCommander::file_system`: arity check (at least two
fields), then dispatch on the file verb; an actor failure is re-reported
under the actor's own kind.  The final catch-all is unreachable from
read_next, which only routes the three file verbs here. -/
def file_system (act : Actors) (s : CState) (params : List String) : CState :=
  if params.length < 2 then
    error_print s (GenerationError.new "input_format"
      ("Record " ++ record_debug params ++
       " is not formatted correctly for a process (<file_op>,<path>)"))
  else
    let verb := params.getD 0 ""
    let path := params.getD 1 ""
    if verb = "new_file" ∨ verb = "mod_file" ∨ verb = "delete_file" then
      match act.fileAct verb path with
      | .ok result_log => log_event s result_log
      | .error e =>
        error_print s (GenerationError.new e.kind
          ("Record " ++ record_debug params ++ " encountered an error " ++ e.message ++ ")"))
    else
      error_print s (GenerationError.new "input_format"
        (path ++ " is not a valid File Operation Command"))

/-- Embedding of `TaskCommander::network`: the verb-specific arity check
(connect_self needs two fields, connect four), then for connect a u16 port
parse (failure is an `input_format` error) before the send; an actor
failure is re-reported under the actor's own kind.  The final catch-all is
unreachable from read_next. -/
def network (act : Actors) (s : CState) (params : List String) : CState :=
  if (params.length < 2 ∧ params.getD 0 "" = "connect_self")
      ∨ (params.length < 4 ∧ params.getD 0 "" = "connect") then
    error_print s (GenerationError.new "input_format"
      ("Record " ++ record_debug params ++
       " is not formatted correctly for a process (<connect>,[destination_host],[destination_port],<message>)"))
  else if params.getD 0 "" = "connect" then
    match u16_parse (params.getD 2 "") with
    | some port =>
      match act.netConnect (params.getD 1 "") port (params.getD 3 "") with
      | .ok result_log => log_event s result_log
      | .error e =>
        error_print s (GenerationError.new e.kind
          ("Record " ++ record_debug params ++ " encountered an error " ++ e.message ++ ")"))
    | none =>
      error_print s (GenerationError.new "input_format"
        ("Record " ++ record_debug params ++
         " is not formatted correctly for a process (<connect>,[destination_host],[destination_port],<message>)"))
  else if params.getD 0 "" = "connect_self" then
    match act.netSelf (params.getD 1 "") with
    | .ok result_log => log_event s result_log
    | .error e =>
      error_print s (GenerationError.new e.kind
        ("Record " ++ record_debug params ++ " encountered an error " ++ e.message ++ ")"))
  else
    error_print s (GenerationError.new "input_format"
      (params.getD 1 "" ++ " is not a valid Network Operation Command"))

/-- Result of one dispatch cycle: either the dispatcher returns normally
with the new state, or the Rust code panics (unwinding with the state the
sink has already seen). -/
inductive StepOut where
  | next (s : CState)
  | panicked (s : CState) (msg : String)

/-- Embedding of `TaskCommander::pause`: a missing-argument row logs an
`input_format` error but does NOT return; the subsequent `params[1]`
indexing then panics on such a row.  With the argument present, a failed
u64 parse logs an `input_format` error; a successful parse just sleeps and
produces no event. -/
def pause (s : CState) (params : List String) : StepOut :=
  let s1 :=
    if params.length < 2 then
      error_print s (GenerationError.new "input_format"
        ("Record " ++ record_debug params ++
         " is not formatted correctly for a connect ([connect],[msec])"))
    else s
  match params[1]? with
  | none => .panicked s1 "StringRecord index out of bounds"
  | some arg =>
    match u64_parse arg with
    | some _ => .next s1
    | none =>
      .next (error_print s1 (GenerationError.new "input_format"
        ("Record " ++ record_debug params ++
         " is not formatted correctly for a connect ([connect],[msec]")))

/-- One row as delivered by the csv reader's `records()` iterator: either a
parsed record (its fields) or a reader error — on which `read_next`'s
`result.unwrap()` panics. -/
inductive RowInput where
  | parseError
  | row (fields : List String)

/-- Embedding of one dispatch cycle of `TaskCommander::read_next` on a row
the reader produced: unwrap the reader result (panicking on a reader
error), then route on field 0 (a record with no fields would equally panic
at the `&new_record[0]` indexing); unknown verbs yield an `input_format`
error. -/
def step (act : Actors) (s : CState) : RowInput → StepOut
  | .parseError => .panicked s "called Result::unwrap on an Err value"
  | .row [] => .panicked s "StringRecord index out of bounds"
  | .row (verb :: rest) =>
    if verb = "process" then .next (run_process act s (verb :: rest))
    else if verb = "pause" then pause s (verb :: rest)
    else if verb = "new_file" ∨ verb = "mod_file" ∨ verb = "delete_file" then
      .next (file_system act s (verb :: rest))
    else if verb = "connect" ∨ verb = "connect_self" then
      .next (network act s (verb :: rest))
    else
      .next (error_print s (GenerationError.new "input_format"
        (verb ++ " is not a valid instruction)")))

/-- A whole session: `main`'s read_next loop over the rows the reader
yields.  Returns the final state and, when a dispatch cycle panicked, the
panic message (the session aborts there). -/
def run_session (act : Actors) : List RowInput → CState → CState × Option String
  | [], s => (s, none)
  | r :: rs, s =>
    match step act s r with
    | .next s2 => run_session act rs s2
    | .panicked s2 msg => (s2, some msg)

/-- Whether a fallible call succeeded. -/
def except_ok {ε α : Type} : Except ε α → Bool
  | .ok _ => true
  | .error _ => false

theorem except_ok_iff {ε α : Type} (x : Except ε α) :
    except_ok x = true ↔ ∃ a, x = .ok a := by
  cases x <;> simp [except_ok]

/-- A well-formed ("valid") row for the given actors: the reader parsed it,
its verb is known, its arity and numeric fields check out, and the routed
actor succeeds on the row's arguments. -/
def row_valid (act : Actors) : RowInput → Bool
  | .parseError => false
  | .row [] => false
  | .row (verb :: rest) =>
    if verb = "process" then
      match rest with
      | path :: _ => except_ok (act.procAct path (process_arguments (verb :: rest)))
      | [] => false
    else if verb = "pause" then
      match rest with
      | arg :: _ => (u64_parse arg).isSome
      | [] => false
    else if verb = "new_file" ∨ verb = "mod_file" ∨ verb = "delete_file" then
      match rest with
      | path :: _ => except_ok (act.fileAct verb path)
      | [] => false
    else if verb = "connect" then
      match rest with
      | host :: portStr :: msg :: _ =>
        match u16_parse portStr with
        | some port => except_ok (act.netConnect host port msg)
        | none => false
      | _ => false
    else if verb = "connect_self" then
      match rest with
      | msg :: _ => except_ok (act.netSelf msg)
      | [] => false
    else false

/-- Whether a row is a `pause` row (the one verb that produces no event). -/
def is_pause : RowInput → Bool
  | .row (verb :: _) => verb = "pause"
  | .parseError => false
  | .row [] => false

/-- A sample event record, used for concrete actor oracles. -/
def sample_log : Log := adapt_log_process "New Process" 0 "sh" "sh " "1"

/-- Concrete actors whose every operation succeeds with `sample_log`. -/
def act_all_ok : Actors :=
  { procAct := fun _ _ => .ok sample_log
    fileAct := fun _ _ => .ok sample_log
    netConnect := fun _ _ _ => .ok sample_log
    netSelf := fun _ => .ok sample_log }

/-- The dispatcher's state at session start: manager available, no errors,
nothing sent to the sink yet. -/
def init_state : CState :=
  { hasPM := true, errors_encountered := 0, events := [], errorLogs := [], spawnCalls := [] }

/-- C3 (evidence of the code bug).  A `pause` row with the millisecond
field missing logs the arity error and then PANICS at the `params[1]`
indexing (so the session aborts), and a row the csv reader fails to parse
panics at `result.unwrap()` — contrary to the claim (and to pause's own
doc comment) that every malformed row is logged, counted and recovered. -/
theorem pause_missing_argument_panics :
    step act_all_ok init_state (.row ["pause"])
      = .panicked (error_print init_state (GenerationError.new "input_format"
          ("Record " ++ record_debug ["pause"] ++
           " is not formatted correctly for a connect ([connect],[msec])")))
        "StringRecord index out of bounds"
    ∧ step act_all_ok init_state .parseError
      = .panicked init_state "called Result::unwrap on an Err value"
    ∧ (run_session act_all_ok [.row ["pause"]] init_state).2
        = some "StringRecord index out of bounds"
    ∧ (run_session act_all_ok [.row ["pause"]] init_state).1.errors_encountered = 1 := by
  exact ⟨rfl, rfl, rfl, rfl⟩

/-- C5 counterexample.  A `process` row with exactly one argument beyond
the verb (fewer than the two the claim requires) passes the dispatcher's
arity check: no `input_format` error is reported and the spawn actor IS
invoked, with that argument as the path and no argument string. -/
theorem process_row_one_argument_spawns :
    (run_process act_all_ok init_state ["process", "sh"]).spawnCalls = [("sh", none)]
    ∧ (run_process act_all_ok init_state ["process", "sh"]).errors_encountered = 0
    ∧ (run_process act_all_ok init_state ["process", "sh"]).events.length = 1 := by
  exact ⟨rfl, rfl, rfl⟩

/-- C5 (amended).  run_process requires at least ONE argument field beyond
the verb: a process row with no field beyond the verb yields exactly the
`input_format` arity error and never invokes the spawn actor, while a row
with exactly one argument (the path) invokes the spawn actor with that
path and no argument string. -/
theorem run_process_min_arity (act : Actors) (s : CState) (path : String)
    (h : s.hasPM = true) :
    run_process act s ["process"]
      = error_print s (GenerationError.new "input_format"
          ("Record " ++ record_debug ["process"] ++
           " is not formatted correctly for a process (process,<path>,[arguments...])"))
    ∧ (run_process act s ["process"]).spawnCalls = s.spawnCalls
    ∧ (run_process act s ["process", path]).spawnCalls = s.spawnCalls ++ [(path, none)] := by
  refine ⟨?_, ?_, ?_⟩
  · unfold run_process
    rw [if_neg (by simp [h]), if_pos (by simp)]
  · unfold run_process
    rw [if_neg (by simp [h]), if_pos (by simp)]
    rfl
  · unfold run_process
    rw [if_neg (by simp [h]), if_neg (by simp)]
    have harg : process_arguments ["process", path] = none := rfl
    have hgd : (["process", path].getD 1 "") = path := rfl
    rw [harg, hgd]
    cases hres : act.procAct path none with
    | ok l => simp [hres, log_event]
    | error e => simp [hres, error_print]

/-- Witness for run_process_min_arity at a concrete state and path. -/
theorem run_process_min_arity_witness :
    (run_process act_all_ok init_state ["process", "a"]).spawnCalls = [("a", none)] := by
  have h := (run_process_min_arity act_all_ok init_state "a" rfl).2.2
  simpa [init_state] using h

/-- The state a dispatch cycle left behind (also at a panic: the records
already handed to the sink persist). -/
def step_state : StepOut → CState
  | .next s => s
  | .panicked s _ => s

/-- Whether a dispatch cycle returned normally. -/
def step_ok : StepOut → Bool
  | .next _ => true
  | .panicked _ _ => false

theorem length_cons2_not_lt_two (n : Nat) : (n + 1 + 1 < 2) = False := by
  simp only [eq_iff_iff, iff_false]
  omega

theorem length_cons4_not_lt_four (n : Nat) : (n + 1 + 1 + 1 + 1 < 4) = False := by
  simp only [eq_iff_iff, iff_false]
  omega

theorem step_valid (act : Actors) (s : CState) (r : RowInput)
    (hpm : s.hasPM = true) (hv : row_valid act r = true) :
    step_ok (step act s r) = true
    ∧ (step_state (step act s r)).hasPM = s.hasPM
    ∧ (step_state (step act s r)).errors_encountered = s.errors_encountered
    ∧ (step_state (step act s r)).events.length
        = s.events.length + (if is_pause r = true then 0 else 1) := by
  cases r with
  | parseError => simp [row_valid] at hv
  | row fields =>
    cases fields with
    | nil => simp [row_valid] at hv
    | cons verb rest =>
      simp only [row_valid] at hv
      by_cases h1 : verb = "process"
      · subst h1
        simp only [if_pos] at hv
        cases rest with
        | nil => simp at hv
        | cons path rest2 =>
          simp only [reduceIte] at hv
          obtain ⟨l, hl⟩ := (except_ok_iff _).mp hv
          simp [step, run_process, hpm, hl, log_event, step_ok, step_state, is_pause,
            length_cons2_not_lt_two]
      · simp only [h1, if_false, if_neg] at hv
        by_cases h2 : verb = "pause"
        · subst h2
          simp only [reduceIte] at hv
          cases rest with
          | nil => simp at hv
          | cons arg rest2 =>
            simp only [] at hv
            obtain ⟨n, hn⟩ := Option.isSome_iff_exists.mp hv
            simp [step, pause, hn, step_ok, step_state, is_pause, length_cons2_not_lt_two]
        · simp only [h2, reduceIte] at hv
          by_cases h3 : verb = "new_file" ∨ verb = "mod_file" ∨ verb = "delete_file"
          · rw [if_pos h3] at hv
            cases rest with
            | nil => simp at hv
            | cons path rest2 =>
              obtain ⟨l, hl⟩ := (except_ok_iff _).mp hv
              have hnp : ¬(verb = "pause") := h2
              have hproc : ¬(verb = "process") := h1
              simp [step, file_system, h3, hl, log_event, step_ok, step_state, is_pause,
                hproc, hnp, length_cons2_not_lt_two]
          · rw [if_neg h3] at hv
            by_cases h4 : verb = "connect"
            · subst h4
              simp only [reduceIte] at hv
              cases rest with
              | nil => simp at hv
              | cons host rest2 =>
                cases rest2 with
                | nil => simp at hv
                | cons portStr rest3 =>
                  cases rest3 with
                  | nil => simp at hv
                  | cons msg rest4 =>
                    simp only [] at hv
                    cases hport : u16_parse portStr with
                    | none => rw [hport] at hv; simp at hv
                    | some port =>
                      rw [hport] at hv
                      obtain ⟨l, hl⟩ := (except_ok_iff _).mp hv
                      simp [step, network, hport, hl, log_event, step_ok, step_state, is_pause,
                        length_cons2_not_lt_two, length_cons4_not_lt_four]
            · by_cases h5 : verb = "connect_self"
              · subst h5
                simp only [reduceIte] at hv
                cases rest with
                | nil => simp at hv
                | cons msg rest2 =>
                  obtain ⟨l, hl⟩ := (except_ok_iff _).mp hv
                  simp [step, network, hl, log_event, step_ok, step_state, is_pause,
                    length_cons2_not_lt_two, length_cons4_not_lt_four]
              · simp [h4, h5] at hv

/-- C4 (amended).  A session over valid rows (rows that parse, whose verb,
arity and numeric fields check out and whose actor succeeds) never aborts
and reports no error, and emits exactly one event per valid row EXCEPT for
`pause` rows, which emit none: the number of events is the number of valid
non-pause rows. -/
theorem session_valid_rows (act : Actors) (rows : List RowInput) :
    ∀ s : CState, s.hasPM = true → (∀ r ∈ rows, row_valid act r = true) →
      (run_session act rows s).2 = none
      ∧ (run_session act rows s).1.errors_encountered = s.errors_encountered
      ∧ (run_session act rows s).1.events.length
          = s.events.length + (rows.filter (fun r => !(is_pause r))).length := by
  induction rows with
  | nil => intro s _ _; simp [run_session]
  | cons r rs ih =>
    intro s hpm hv
    have h := step_valid act s r hpm (hv r (by simp))
    cases hstep : step act s r with
    | panicked s2 msg => rw [hstep] at h; simp [step_ok] at h
    | next s2 =>
      rw [hstep] at h
      simp only [step_state, step_ok, true_and] at h
      obtain ⟨hpm2, herr, hev⟩ := h
      simp only [run_session, hstep]
      have ih2 := ih s2 (by rw [hpm2, hpm]) (fun q hq => hv q (by simp [hq]))
      refine ⟨ih2.1, ?_, ?_⟩
      · rw [ih2.2.1, herr]
      · rw [ih2.2.2, hev]
        by_cases hp : is_pause r = true
        · simp [hp, List.filter_cons]
        · have hp' : is_pause r = false := by
            cases hq : is_pause r
            · rfl
            · exact absurd hq hp
          simp [hp', List.filter_cons]
          omega

/-- C4 counterexample.  A single valid `pause` row yields a session with
zero errors but also ZERO events — not the one event per valid row the
claim asserts. -/
theorem valid_pause_row_emits_no_event :
    row_valid act_all_ok (.row ["pause", "1"]) = true
    ∧ (run_session act_all_ok [.row ["pause", "1"]] init_state).2 = none
    ∧ (run_session act_all_ok [.row ["pause", "1"]] init_state).1.events.length = 0
    ∧ (run_session act_all_ok [.row ["pause", "1"]] init_state).1.errors_encountered = 0 := by
  exact ⟨rfl, rfl, rfl, rfl⟩

/-- Witness for session_valid_rows: a concrete two-row session (one file
row, one pause row) finishes with no panic, no errors and exactly one
event. -/
theorem session_valid_rows_witness :
    (run_session act_all_ok [.row ["new_file", "f"], .row ["pause", "2"]] init_state).2 = none
    ∧ (run_session act_all_ok [.row ["new_file", "f"], .row ["pause", "2"]] init_state).1.errors_encountered = 0
    ∧ (run_session act_all_ok [.row ["new_file", "f"], .row ["pause", "2"]] init_state).1.events.length = 1 := by
  have h := session_valid_rows act_all_ok [.row ["new_file", "f"], .row ["pause", "2"]]
    init_state rfl (by intro r hr; fin_cases hr <;> rfl)
  refine ⟨h.1, ?_, ?_⟩
  · rw [h.2.1]
    rfl
  · rw [h.2.2]
    rfl

/-- The error categories actually constructible in the source: the six
documented ones plus the misspelled kinds of `new_process` ("processes")
and `stop_process` ("processs") and the kinds of the `From` conversions in
common.rs ("OS Generic" for OsString, "string" for plain strings). -/
def constructible_kinds : List String :=
  documented_kinds ++ ["processes", "processs", "OS Generic", "string"]

/-- Constraint on the actor oracles: every error an actor reports carries a
constructible kind — as the embedded operations do: new_process errors are
"processes" or "io", stop_all errors are "process", network errors are
"network", file-system errors are "io" or "OS Generic". -/
def actors_kinds_ok (act : Actors) : Prop :=
  (∀ p a e, act.procAct p a = .error e → e.kind ∈ constructible_kinds)
  ∧ (∀ v p e, act.fileAct v p = .error e → e.kind ∈ constructible_kinds)
  ∧ (∀ h p m e, act.netConnect h p m = .error e → e.kind ∈ constructible_kinds)
  ∧ (∀ m e, act.netSelf m = .error e → e.kind ∈ constructible_kinds)

theorem run_process_error_kinds (act : Actors) (hact : actors_kinds_ok act)
    (s : CState) (params : List String) :
    ∀ e ∈ (run_process act s params).errorLogs,
      e ∈ s.errorLogs ∨ e.kind ∈ constructible_kinds := by
  intro e he
  unfold run_process at he
  split at he
  · simp [error_print] at he
    rcases he with he | rfl
    · exact Or.inl he
    · exact Or.inr (show "user_permissions" ∈ constructible_kinds by decide)
  · split at he
    · simp [error_print] at he
      rcases he with he | rfl
      · exact Or.inl he
      · exact Or.inr (show "input_format" ∈ constructible_kinds by decide)
    · simp only [] at he
      split at he
      · simp [log_event] at he
        exact Or.inl he
      · rename_i e0 heq
        simp [error_print] at he
        rcases he with he | rfl
        · exact Or.inl he
        · exact Or.inr (hact.1 _ _ e0 heq)

theorem file_system_error_kinds (act : Actors) (hact : actors_kinds_ok act)
    (s : CState) (params : List String) :
    ∀ e ∈ (file_system act s params).errorLogs,
      e ∈ s.errorLogs ∨ e.kind ∈ constructible_kinds := by
  intro e he
  unfold file_system at he
  split at he
  · simp [error_print] at he
    rcases he with he | rfl
    · exact Or.inl he
    · exact Or.inr (show "input_format" ∈ constructible_kinds by decide)
  · simp only [] at he
    split at he
    · split at he
      · simp [log_event] at he
        exact Or.inl he
      · rename_i e0 heq
        simp [error_print] at he
        rcases he with he | rfl
        · exact Or.inl he
        · exact Or.inr (hact.2.1 _ _ e0 heq)
    · simp [error_print] at he
      rcases he with he | rfl
      · exact Or.inl he
      · exact Or.inr (show "input_format" ∈ constructible_kinds by decide)

theorem network_error_kinds (act : Actors) (hact : actors_kinds_ok act)
    (s : CState) (params : List String) :
    ∀ e ∈ (network act s params).errorLogs,
      e ∈ s.errorLogs ∨ e.kind ∈ constructible_kinds := by
  intro e he
  unfold network at he
  split at he
  · simp [error_print] at he
    rcases he with he | rfl
    · exact Or.inl he
    · exact Or.inr (show "input_format" ∈ constructible_kinds by decide)
  · split at he
    · split at he
      · split at he
        · simp [log_event] at he
          exact Or.inl he
        · rename_i e0 heq
          simp [error_print] at he
          rcases he with he | rfl
          · exact Or.inl he
          · exact Or.inr (hact.2.2.1 _ _ _ e0 heq)
      · simp [error_print] at he
        rcases he with he | rfl
        · exact Or.inl he
        · exact Or.inr (show "input_format" ∈ constructible_kinds by decide)
    · split at he
      · split at he
        · simp [log_event] at he
          exact Or.inl he
        · rename_i e0 heq
          simp [error_print] at he
          rcases he with he | rfl
          · exact Or.inl he
          · exact Or.inr (hact.2.2.2 _ e0 heq)
      · simp [error_print] at he
        rcases he with he | rfl
        · exact Or.inl he
        · exact Or.inr (show "input_format" ∈ constructible_kinds by decide)

theorem pause_error_kinds (s : CState) (params : List String) :
    ∀ e ∈ (step_state (pause s params)).errorLogs,
      e ∈ s.errorLogs ∨ e.kind ∈ constructible_kinds := by
  intro e he
  by_cases hc : params.length < 2
  · simp only [pause, if_pos hc] at he
    split at he
    · simp [step_state, error_print] at he
      rcases he with he | rfl
      · exact Or.inl he
      · exact Or.inr (show "input_format" ∈ constructible_kinds by decide)
    · split at he
      · simp [step_state, error_print] at he
        rcases he with he | rfl
        · exact Or.inl he
        · exact Or.inr (show "input_format" ∈ constructible_kinds by decide)
      · simp [step_state, error_print] at he
        rcases he with he | rfl | rfl
        · exact Or.inl he
        · exact Or.inr (show "input_format" ∈ constructible_kinds by decide)
        · exact Or.inr (show "input_format" ∈ constructible_kinds by decide)
  · simp only [pause, if_neg hc] at he
    split at he
    · simp only [step_state] at he
      exact Or.inl he
    · split at he
      · simp only [step_state] at he
        exact Or.inl he
      · simp [step_state, error_print] at he
        rcases he with he | rfl
        · exact Or.inl he
        · exact Or.inr (show "input_format" ∈ constructible_kinds by decide)

theorem step_error_kinds (act : Actors) (hact : actors_kinds_ok act)
    (s : CState) (r : RowInput) :
    ∀ e ∈ (step_state (step act s r)).errorLogs,
      e ∈ s.errorLogs ∨ e.kind ∈ constructible_kinds := by
  cases r with
  | parseError => intro e he; exact Or.inl he
  | row fields =>
    cases fields with
    | nil => intro e he; exact Or.inl he
    | cons verb rest =>
      intro e he
      simp only [step] at he
      split at he
      · exact run_process_error_kinds act hact s _ e (by simpa [step_state] using he)
      · split at he
        · exact pause_error_kinds s _ e he
        · split at he
          · exact file_system_error_kinds act hact s _ e (by simpa [step_state] using he)
          · split at he
            · exact network_error_kinds act hact s _ e (by simpa [step_state] using he)
            · simp [step_state, error_print] at he
              rcases he with he | rfl
              · exact Or.inl he
              · exact Or.inr (show "input_format" ∈ constructible_kinds by decide)

/-- C7 (amended).  Every GenerationError a session logs has its kind drawn
from the six documented categories EXTENDED with the kinds the source
actually constructs beyond them: "processes" (new_process's
spawn-confirmation failure), "processs" (stop_process's not-found error),
"OS Generic" and "string" (the From conversions in common.rs); provided
the actor oracles only report errors with those kinds (as the embedded
operations do) and the initial log satisfies the same bound. -/
theorem session_error_kinds (act : Actors) (rows : List RowInput) :
    ∀ s : CState, actors_kinds_ok act →
      (∀ e ∈ s.errorLogs, e.kind ∈ constructible_kinds) →
      ∀ e ∈ (run_session act rows s).1.errorLogs, e.kind ∈ constructible_kinds := by
  induction rows with
  | nil => intro s _ hs e he; exact hs e he
  | cons r rs ih =>
    intro s hact hs e he
    have hsk := step_error_kinds act hact s r
    cases hstep : step act s r with
    | panicked s2 msg =>
      rw [hstep] at hsk
      simp only [step_state] at hsk
      simp only [run_session, hstep] at he
      rcases hsk e he with h | h
      · exact hs e h
      · exact h
    | next s2 =>
      rw [hstep] at hsk
      simp only [step_state] at hsk
      simp only [run_session, hstep] at he
      refine ih s2 hact ?_ e he
      intro e2 he2
      rcases hsk e2 he2 with h | h
      · exact hs e2 h
      · exact h

/-- Witness for session_error_kinds: in a concrete one-row session whose
row has an unknown verb, the logged input_format error's kind is among the
constructible kinds. -/
theorem session_error_kinds_witness :
    (GenerationError.new "input_format" ("x is not a valid instruction)")).kind
      ∈ constructible_kinds := by
  refine session_error_kinds act_all_ok [.row ["x"]] init_state
    ⟨?_, ?_, ?_, ?_⟩ ?_ _ ?_
  · intro p a e h; simp [act_all_ok] at h
  · intro v p e h; simp [act_all_ok] at h
  · intro h p m e hx; simp [act_all_ok] at hx
  · intro m e h; simp [act_all_ok] at h
  · intro e he; simp [init_state] at he
  · show _ ∈ (run_session act_all_ok [.row ["x"]] init_state).1.errorLogs
    decide

end EDR
